import Mathlib

/-!
Verification of the `watson-online-store` orchestration core
(`watsononlinestore/watson_online_store.py`).

Strings are modelled as `List Char` so that the Python string primitives
(`str.find`, slicing, `str.replace`, `int(...)`) have direct executable
counterparts.  The context dictionary is an association list from keys to
values, where a value is either a Python string or a Python list of strings
(the only two shapes the orchestration core ever stores under the keys it
inspects).  Fallible Python code (uncaught `KeyError` / `TypeError` /
`AttributeError`) is modelled with `Option`, `none` meaning an uncaught
exception escaping the handler.
-/

abbrev Str := List Char

/-- Python `s.find(sub)` restricted to searching from a given offset of the
remaining list, accumulating the absolute index.  `none` models Python's
`-1` (not found). -/
def findFrom (pat : Str) : Str → Nat → Option Nat
  | [], i => if pat.isPrefixOf ([] : Str) then some i else none
  | c :: t, i => if pat.isPrefixOf (c :: t) then some i else findFrom pat t (i + 1)

/-- Python `s.find(sub)`: index of the first occurrence, `none` for `-1`. -/
def pyFind (pat s : Str) : Option Nat := findFrom pat s 0

/-- Python `s.find(sub, start)`: first occurrence at index `start` or later. -/
def pyFindFrom (pat s : Str) (start : Nat) : Option Nat :=
  (findFrom pat (s.drop start) 0).map (fun i => i + start)

/-- Python `s.replace(pat, rep)` (all non-overlapping occurrences, leftmost
first), with explicit fuel; fuel `s.length` always suffices because each
step consumes at least one character.  Only called with non-empty `pat`. -/
def pyReplaceFuel (pat rep : Str) : Nat → Str → Str
  | 0, s => s
  | _ + 1, [] => []
  | f + 1, c :: t =>
    if !pat.isEmpty && pat.isPrefixOf (c :: t) then
      rep ++ pyReplaceFuel pat rep f ((c :: t).drop pat.length)
    else
      c :: pyReplaceFuel pat rep f t

/-- Python `s.replace(pat, rep)`. -/
def pyReplace (pat rep s : Str) : Str := pyReplaceFuel pat rep s.length s

/-- Python `int(s)` for plain decimal literals: surrounding whitespace is
stripped, an optional single leading sign is accepted, and the remainder
must be one or more ASCII digits.  `none` models `ValueError`. -/
def parseDigits (s : Str) : Option Nat :=
  if s.isEmpty then none
  else if s.all Char.isDigit then
    some (s.foldl (fun acc c => acc * 10 + (c.toNat - 48)) 0)
  else none

def pyInt (s : Str) : Option Int :=
  let t := ((s.dropWhile Char.isWhitespace).reverse.dropWhile Char.isWhitespace).reverse
  match t with
  | '+' :: rest => (parseDigits rest).map (fun n => (n : Int))
  | '-' :: rest => (parseDigits rest).map (fun n => -(n : Int))
  | _ => (parseDigits t).map (fun n => (n : Int))

/-- Decimal rendering of a cart index, Python `str(cart_number)`. -/
def strOfNat (n : Nat) : Str := (toString n).toList

/-- A value stored in the conversation context: the dialogue engine and the
handlers only ever store strings or lists of strings under the keys the
orchestration loop inspects. -/
inductive CtxVal where
  | str (s : Str)
  | list (l : List Str)
deriving DecidableEq

/-- The conversation context, a Python dict from string keys to values. -/
abbrev Ctx := List (Str × CtxVal)

/-- Python `d[k]` / `k in d` on an association list (first binding wins). -/
def alGet {α : Type} (l : List (Str × α)) (k : Str) : Option α :=
  match l.find? (fun p => decide (p.1 = k)) with
  | some p => some p.2
  | none => none

/-- Python `d[k] = v`: replace the first binding of `k`, or append a new
binding when `k` is absent. -/
def alSet {α : Type} : List (Str × α) → Str → α → List (Str × α)
  | [], k, v => [(k, v)]
  | p :: t, k, v => if p.1 = k then (k, v) :: t else p :: alSet t k v

/-- `WatsonOnlineStore.context_merge`: `dict1.copy()` then `update(dict2)` —
a shallow last-writer-wins union. -/
def context_merge (dict1 dict2 : Ctx) : Ctx :=
  dict2.foldl (fun acc p => alSet acc p.1 p.2) dict1

def shopping_cart_key : Str := "shopping_cart".toList
def cart_item_key : Str := "cart_item".toList
def discovery_string_key : Str := "discovery_string".toList
def get_input_key : Str := "get_input".toList
def discovery_result_key : Str := "discovery_result".toList

/-- `WatsonOnlineStore.clear_shopping_cart`. -/
def clear_shopping_cart (ctx : Ctx) : Ctx :=
  alSet (alSet ctx shopping_cart_key (CtxVal.str [])) cart_item_key (CtxVal.str [])

/-- `slack_encode` inside `format_discovery_response`: sequentially replace
`&`, `<`, `>` (in that order), skipping empty/falsy input. -/
def slack_encode (s : Str) : Str :=
  if s = [] then s
  else
    pyReplace (">".toList) ("&gt;".toList)
      (pyReplace ("<".toList) ("&lt;".toList)
        (pyReplace ("&".toList) ("&amp;".toList) s))

/-- One step of `re.sub(r'scale\[[0-9]+\]', 'scale[50]', img)`: try to match
`scale[` + one or more digits + `]` at the head of `s`, returning the
remainder after the match. -/
def matchScale (s : Str) : Option Str :=
  if ("scale[".toList).isPrefixOf s then
    let t := s.drop 6
    let ds := t.takeWhile Char.isDigit
    if ds.isEmpty then none
    else
      match t.drop ds.length with
      | ']' :: rest => some rest
      | _ => none
  else none

/-- `re.sub` of the scale pattern, leftmost non-overlapping occurrences,
with fuel (`s.length` always suffices: every step consumes characters). -/
def scaleSubFuel : Nat → Str → Str
  | 0, s => s
  | _ + 1, [] => []
  | f + 1, c :: t =>
    match matchScale (c :: t) with
    | some rest => ("scale[50]".toList) ++ scaleSubFuel f rest
    | none => c :: scaleSubFuel f t

def scaleSub (s : Str) : Str := scaleSubFuel s.length s

/-- Fixed marker constants of `format_discovery_response`. -/
def href_tag : Str := "/ProductDetail.aspx?pid=".toList
def img_tag : Str := ("<a class=\"jqzoom\" href=\"").toList
def product_tag : Str := "Product:".toList
def category_tag : Str := "Category:".toList
def url_start : Str := "http://www.logostore-globalid.us".toList

def DISCOVERY_QUERY_COUNT : Nat := 10
def DISCOVERY_KEEP_COUNT : Nat := 5

/-- One formatted product record (the dict appended to `output`). -/
structure ProductData where
  cart_number : Str
  name : Str
  url : Str
  image : Str
deriving DecidableEq

/-- One raw Discovery result: the fields of the result dict that
`format_discovery_response` and the score filter consume.  A `none` field
models the key being absent from the result dict. -/
structure RawResult where
  html : Option Str
  text : Option Str
  score : Option ℚ
deriving DecidableEq

/-- The body of the `for i in range(min(len(results), DISCOVERY_KEEP_COUNT))`
loop of `format_discovery_response` for one result, given the running
`cart_number`. -/
def formatOne (cart_number : Nat) (result : RawResult) : ProductData :=
  let product_url : Str :=
    match result.html with
    | none => []
    | some html =>
      match pyFind href_tag html with
      | none => []
      | some sidx =>
        if sidx > 0 then
          url_start ++ href_tag ++ ((html.drop (sidx + href_tag.length)).take 6)
        else []
  let img_url : Str :=
    match result.html with
    | none => []
    | some html =>
      match pyFind img_tag html with
      | none => []
      | some simg0 =>
        if simg0 > 0 then
          let simg := simg0 + img_tag.length
          match pyFindFrom ("\"".toList) html simg with
          | none => []
          | some eimg =>
            if eimg > 0 then scaleSub ((html.drop simg).take (eimg - simg)) else []
        else []
  let product_name : Str :=
    match result.text with
    | none => []
    | some text =>
      match pyFind product_tag text with
      | none => []
      | some pidx =>
        if pidx > 0 then
          let sidx := pidx + product_tag.length
          match pyFindFrom category_tag text sidx with
          | none => []
          | some eidx =>
            if eidx > 0 then (text.drop sidx).take (eidx - 1 - sidx) else []
        else []
  { cart_number := strOfNat cart_number,
    name := slack_encode product_name,
    url := slack_encode product_url,
    image := slack_encode img_url }

/-- The loop of `format_discovery_response`: at most `n` results are
consumed, `cart_number` counts up from the given start. -/
def formatList (cart_number : Nat) : Nat → List RawResult → List ProductData
  | 0, _ => []
  | _ + 1, [] => []
  | n + 1, r :: rs => formatOne cart_number r :: formatList (cart_number + 1) n rs

/-- The Discovery response dict: the fields consumed by the score filter and
the formatter.  `results = none` models the `results` key being absent. -/
structure DiscResponse where
  results : Option (List RawResult)
  matching_results : Option Int
deriving DecidableEq

/-- `WatsonOnlineStore.format_discovery_response`. -/
def format_discovery_response (response : DiscResponse) : List ProductData :=
  match response.results with
  | none => []
  | some results =>
    if results.isEmpty then []
    else formatList 1 DISCOVERY_KEEP_COUNT results

/-- The filter predicate of `get_discovery_response`:
`'score' in x and x['score'] > self.discovery_score_filter`. -/
def score_keep (filter : ℚ) (x : RawResult) : Bool :=
  match x.score with
  | some sc => decide (filter < sc)
  | none => false

/-- The score-filter block of `get_discovery_response`:
`if self.discovery_score_filter and 'results' in discovery_response: ...`
(a float is truthy exactly when non-zero). -/
def apply_score_filter (filter : ℚ) (resp : DiscResponse) : DiscResponse :=
  if filter = 0 then resp
  else
    match resp.results with
    | none => resp
    | some rs =>
      let fr := rs.filter (score_keep filter)
      { resp with matching_results := some ((fr.length : Int)), results := some fr }

/-- What `get_discovery_response` returns / stores: the structured result
list kept in `self.response_tuple` and the `{'discovery_result': ...}`
fragment returned to the caller. -/
structure DiscoveryOutcome where
  response_tuple : List ProductData
  fragment : Ctx
deriving DecidableEq

/-- The concatenation loop of `get_discovery_response` building
`formatted_response`. -/
def formatted_response_of (items : List ProductData) : Str :=
  items.foldl
    (fun acc item =>
      acc ++ ("\n".toList) ++ item.cart_number ++ (") ".toList) ++ item.name
        ++ ("\n".toList) ++ item.image)
    []

/-- `WatsonOnlineStore.get_discovery_response`, given the raw response the
Discovery collaborator produced for the query. -/
def get_discovery_response (filter : ℚ) (discovery_response : DiscResponse) :
    DiscoveryOutcome :=
  let dr := apply_score_filter filter discovery_response
  let response := format_discovery_response dr
  { response_tuple := response,
    fragment := [(discovery_result_key, CtxVal.str (formatted_response_of response))] }

/-- `OnlineStoreCustomer`, also the shape of a stored customer record
(`get_customer_dict` without the constant `type` field). -/
structure Customer where
  email : Str
  first_name : Str
  last_name : Str
  shopping_cart : List Str
deriving DecidableEq

/-- `OnlineStoreCustomer.get_customer_dict`, as a context fragment in the
source's key order. -/
def get_customer_dict (c : Customer) : Ctx :=
  [(("type".toList), CtxVal.str ("customer".toList)),
   (("email".toList), CtxVal.str c.email),
   (("first_name".toList), CtxVal.str c.first_name),
   (("last_name".toList), CtxVal.str c.last_name),
   (shopping_cart_key, CtxVal.list c.shopping_cart)]

/-- `WatsonOnlineStore.customer_from_db`: build the session customer from a
stored record (note: `shopping_cart=[]` in the source). -/
def customer_from_db (user_data : Customer) : Customer :=
  { email := user_data.email,
    first_name := user_data.first_name,
    last_name := user_data.last_name,
    shopping_cart := [] }

/-- The `profile` sub-dict of the Slack `users.info` payload.  `email = none`
models the key being absent (the source reads it with `.get`). -/
structure SlackProfile where
  email : Option Str
  first_name : Str
  last_name : Str
deriving DecidableEq

/-- The `user` sub-dict; `profile = none` models `.get('profile', {})`
falling back to the empty dict. -/
structure SlackUser where
  profile : Option SlackProfile
deriving DecidableEq

/-- The Slack `users.info` response; `user = none` models `'user' not in
user_json`. -/
structure SlackUserJson where
  user : Option SlackUser
deriving DecidableEq

/-- `WatsonOnlineStore.create_user_from_ui` (only reached when the profile
email is present and non-empty). -/
def create_user_from_ui (p : SlackProfile) : Customer :=
  { email := p.email.getD [],
    first_name := p.first_name,
    last_name := p.last_name,
    shopping_cart := [] }

/-- Modelled from the spec: the `cloudant_online_store` collaborator (its
module is not part of the sources under verification).  Section 6 of the
spec gives its contract: `find_customer(email)`, `create_customer(record)`,
`list_cart(email)` (ordered), `add_cart_item(email, item)` (append),
`delete_cart_item(email, item)` (remove that exact item). -/
structure DB where
  customers : List (Str × Customer)
  carts : List (Str × List Str)
deriving DecidableEq

def DB.find_customer (db : DB) (email : Str) : Option Customer :=
  alGet db.customers email

/-- Modelled from the spec: read-through cart listing, empty for an unknown
customer. -/
def DB.list_shopping_cart (db : DB) (email : Str) : List Str :=
  (alGet db.carts email).getD []

/-- Modelled from the spec: `add_cart_item` appends one line item. -/
def DB.add_to_shopping_cart (db : DB) (email : Str) (item : Str) : DB :=
  { db with carts := alSet db.carts email (db.list_shopping_cart email ++ [item]) }

def removeFirst (item : Str) : List Str → List Str
  | [] => []
  | x :: t => if x = item then t else x :: removeFirst item t

/-- Modelled from the spec: `delete_cart_item` removes that exact item (the
first matching occurrence of the formatted line). -/
def DB.delete_item_shopping_cart (db : DB) (email : Str) (item : Str) : DB :=
  { db with carts := alSet db.carts email (removeFirst item (db.list_shopping_cart email)) }

/-- Modelled from the spec: `add_customer_obj` persists a new customer
record keyed by email. -/
def DB.add_customer_obj (db : DB) (c : Customer) : DB :=
  { db with customers := alSet db.customers c.email c }

/-- The per-session mutable state of `WatsonOnlineStore` that the
orchestration loop owns, together with the datastore collaborator and the
log of messages posted back to the transport. -/
structure BotState where
  context : Ctx
  customer : Option Customer
  response_tuple : Option (List ProductData)
  db : DB
  sent : List Str
deriving DecidableEq

/-- `WatsonOnlineStore.add_customer_to_context` (the caller guards with
`if self.customer`; an unbound customer leaves the state unchanged). -/
def add_customer_to_context (st : BotState) : BotState :=
  match st.customer with
  | some c => { st with context := context_merge st.context (get_customer_dict c) }
  | none => st

/-- `WatsonOnlineStore.init_customer`, given the (possibly failed) Slack
`users.info` response; `user_json = none` models the logged-and-swallowed
transport exception. -/
def init_customer (user_json : Option SlackUserJson) (st : BotState) : BotState :=
  match user_json with
  | none => st
  | some uj =>
    match uj.user with
    | none => st
    | some u =>
      match u.profile with
      | none => add_customer_to_context st
      | some p =>
        match p.email with
        | none => add_customer_to_context st
        | some e =>
          if e.isEmpty then add_customer_to_context st
          else
            match st.db.find_customer e with
            | some user_data =>
              add_customer_to_context { st with customer := some (customer_from_db user_data) }
            | none =>
              let c := create_user_from_ui p
              add_customer_to_context
                { st with customer := some c, db := st.db.add_customer_obj c }

/-- `WatsonOnlineStore.handle_list_shopping_cart`, given the customer email
(the source reads `self.customer.email` first).  Returns the updated context
and the `get_input` flag (always `False`). -/
def cart_listing (items : List Str) : Str :=
  (items.enum).foldl
    (fun acc p => acc ++ strOfNat (p.1 + 1) ++ (") ".toList) ++ p.2 ++ ("\n".toList))
    []

def handle_list_shopping_cart (ctx : Ctx) (email : Str) (db : DB) : Ctx × Bool :=
  (alSet ctx shopping_cart_key (CtxVal.str (cart_listing (db.list_shopping_cart email))),
   false)

/-- `WatsonOnlineStore.handle_delete_from_cart`.  `none` models an uncaught
exception: `AttributeError` when no customer is bound, `KeyError` when
`cart_item` is absent, `TypeError` when it is a list.  A `ValueError` from
`int(...)` is caught in the source: it logs and returns `False` without
clearing the cart flags. -/
def handle_delete_from_cart (ctx : Ctx) (customer : Option Customer) (db : DB) :
    Option (Ctx × DB × Bool) :=
  match customer with
  | none => none
  | some cu =>
    let shopping_list := db.list_shopping_cart cu.email
    match alGet ctx cart_item_key with
    | none => none
    | some (CtxVal.list _) => none
    | some (CtxVal.str s) =>
      match pyInt s with
      | none => some (ctx, db, false)
      | some item_num =>
        let db' :=
          (shopping_list.enum).foldl
            (fun d p =>
              if ((p.1 : Int) + 1 = item_num) then d.delete_item_shopping_cart cu.email p.2
              else d)
            db
        some (clear_shopping_cart ctx, db', false)

/-- `WatsonOnlineStore.handle_add_to_cart`.  The source parses `cart_item`
first (so a `ValueError` is reported even with no bound customer), then
reads `self.customer.email` and iterates `self.response_tuple`
(`none` = still `None`, i.e. `TypeError` on `enumerate`). -/
def handle_add_to_cart (ctx : Ctx) (customer : Option Customer) (db : DB)
    (response_tuple : Option (List ProductData)) : Option (Ctx × DB × Bool) :=
  match alGet ctx cart_item_key with
  | none => none
  | some (CtxVal.list _) => none
  | some (CtxVal.str s) =>
    match pyInt s with
    | none => some (ctx, db, false)
    | some cart_item =>
      match customer with
      | none => none
      | some cu =>
        match response_tuple with
        | none => none
        | some rt =>
          let db' :=
            (rt.enum).foldl
              (fun d p =>
                if ((p.1 : Int) + 1 = cart_item) then
                  d.add_to_shopping_cart cu.email
                    (p.2.name ++ (": ".toList) ++ p.2.url ++ ("\n".toList))
                else d)
              db
          some (clear_shopping_cart ctx, db', false)

/-- Python truthiness of a context value (`if self.context['discovery_string']`). -/
def truthy : CtxVal → Bool
  | CtxVal.str s => decide (s ≠ [])
  | CtxVal.list l => decide (l ≠ [])

/-- Python `v == 'word'` for a context value (a list never equals a string). -/
def val_eq_str (v : CtxVal) (t : Str) : Bool :=
  match v with
  | CtxVal.str s => decide (s = t)
  | CtxVal.list _ => false

/-- Python `v != ''` for a context value (a list is always `!= ''`). -/
def val_ne_empty (v : CtxVal) : Bool :=
  match v with
  | CtxVal.str s => decide (s ≠ [])
  | CtxVal.list _ => true

/-- Condition of branch 1 of `handle_message`:
`'discovery_string' in self.context.keys() and self.context['discovery_string']
and self.discovery_client`. -/
def cond_discovery (ctx : Ctx) (has_client : Bool) : Bool :=
  (match alGet ctx discovery_string_key with
   | some v => truthy v
   | none => false) && has_client

/-- Condition of branch 2: `self.context['shopping_cart'] == 'list'`. -/
def cond_cart_list (ctx : Ctx) : Bool :=
  match alGet ctx shopping_cart_key with
  | some v => val_eq_str v ("list".toList)
  | none => false

/-- Condition of branch 3: `shopping_cart == 'add'` and `cart_item` present
and `!= ''`. -/
def cond_cart_add (ctx : Ctx) : Bool :=
  (match alGet ctx shopping_cart_key with
   | some v => val_eq_str v ("add".toList)
   | none => false) &&
  (match alGet ctx cart_item_key with
   | some v => val_ne_empty v
   | none => false)

/-- Condition of branch 4: `shopping_cart == 'delete'` and `cart_item`
present and `!= ''`. -/
def cond_cart_delete (ctx : Ctx) : Bool :=
  (match alGet ctx shopping_cart_key with
   | some v => val_eq_str v ("delete".toList)
   | none => false) &&
  (match alGet ctx cart_item_key with
   | some v => val_ne_empty v
   | none => false)

/-- Condition of branch 5: `self.context['get_input'] == 'no'`. -/
def cond_no_input (ctx : Ctx) : Bool :=
  match alGet ctx get_input_key with
  | some v => val_eq_str v ("no".toList)
  | none => false

inductive Branch where
  | discovery
  | cartList
  | cartAdd
  | cartDelete
  | noInput
  | awaitInput
deriving DecidableEq

/-- The flag-inspection chain at the end of `handle_message`, in source
order: the first condition that holds selects the branch. -/
def dispatch_branch (ctx : Ctx) (has_client : Bool) : Branch :=
  if cond_discovery ctx has_client then Branch.discovery
  else if cond_cart_list ctx then Branch.cartList
  else if cond_cart_add ctx then Branch.cartAdd
  else if cond_cart_delete ctx then Branch.cartDelete
  else if cond_no_input ctx then Branch.noInput
  else Branch.awaitInput

/-- One dialogue-engine turn result: the optional new context and the
`output.text` list. -/
structure WatsonResp where
  context : Option Ctx
  output_text : List Str
deriving DecidableEq

/-- `WatsonOnlineStore.handle_DiscoveryQuery`, with the Discovery
collaborator as a total query oracle (the source's `except` branch that
stringifies a collaborator exception is collaborator behaviour, not
modelled).  `none` models the `KeyError` on a missing `discovery_string`
and the unmodelled case of a non-string query value. -/
def handle_DiscoveryQuery (f : Str → DiscResponse) (filter : ℚ) (st : BotState) :
    Option (BotState × Bool) :=
  match alGet st.context discovery_string_key with
  | none => none
  | some (CtxVal.list _) => none
  | some (CtxVal.str query_string) =>
    let outc := get_discovery_response filter (f query_string)
    some
      ({ st with
          context := context_merge st.context outc.fragment,
          response_tuple := some outc.response_tuple },
       false)

/-- `WatsonOnlineStore.handle_message`: replace the context wholesale when
the dialogue engine returned one, join and send the reply texts, then run
the first matching branch.  Returns the state and the `get_input` flag
(`true` = UI input required); `none` = an uncaught exception. -/
def handle_message (wr : WatsonResp) (disc : Option (Str → DiscResponse)) (filter : ℚ)
    (st : BotState) : Option (BotState × Bool) :=
  let ctx := match wr.context with | some c => c | none => st.context
  let response := wr.output_text.foldl (fun acc t => acc ++ t ++ ("\n".toList)) []
  let st1 : BotState := { st with context := ctx, sent := st.sent ++ [response] }
  match dispatch_branch ctx disc.isSome, disc with
  | Branch.discovery, some f => handle_DiscoveryQuery f filter st1
  | Branch.discovery, none => none
  | Branch.cartList, _ =>
    match st1.customer with
    | none => none
    | some cu =>
      let r := handle_list_shopping_cart st1.context cu.email st1.db
      some ({ st1 with context := r.1 }, r.2)
  | Branch.cartAdd, _ =>
    match handle_add_to_cart st1.context st1.customer st1.db st1.response_tuple with
    | none => none
    | some res => some ({ st1 with context := res.1, db := res.2.1 }, res.2.2)
  | Branch.cartDelete, _ =>
    match handle_delete_from_cart st1.context st1.customer st1.db with
    | none => none
    | some res => some ({ st1 with context := res.1, db := res.2.1 }, res.2.2)
  | Branch.noInput, _ => some (st1, false)
  | Branch.awaitInput, _ => some (st1, true)

/-- Outcome of the inner `while not get_input` loop of `run` for one
transport message. -/
inductive LoopOutcome where
  | awaiting (st : BotState)
  | crashed
  | starved (st : BotState)
deriving DecidableEq

/-- The inner loop of `WatsonOnlineStore.run`:
`get_input = self.handle_message(message, sender)` followed by
`while not get_input: get_input = self.handle_message(message, sender)` —
always the same `message`.  The dialogue engine is modelled as the trace of
its successive turn responses; each iteration consumes one.  Returns the
outcome and the list of message texts submitted to the engine
(`starved` = the finite trace ran out while the loop still wanted another
turn; `crashed` = an uncaught exception). -/
def run_inner (disc : Option (Str → DiscResponse)) (filter : ℚ) (msg : Str) :
    BotState → List WatsonResp → LoopOutcome × List Str
  | st, [] => (LoopOutcome.starved st, [])
  | st, wr :: rest =>
    match handle_message wr disc filter st with
    | none => (LoopOutcome.crashed, [msg])
    | some (st', true) => (LoopOutcome.awaiting st', [msg])
    | some (st', false) =>
      let r := run_inner disc filter msg st' rest
      (r.1, msg :: r.2)

theorem alGet_alSet_self {α : Type} (l : List (Str × α)) (k : Str) (v : α) :
    alGet (alSet l k v) k = some v := by
  induction l with
  | nil => simp [alGet, alSet, List.find?]
  | cons p t ih =>
    by_cases h : p.1 = k
    · simp [alGet, alSet, h, List.find?]
    · simp only [alSet, if_neg h]
      simpa [alGet, List.find?, h] using ih

theorem alGet_alSet_of_ne {α : Type} (l : List (Str × α)) (k k' : Str) (v : α)
    (hne : k' ≠ k) : alGet (alSet l k v) k' = alGet l k' := by
  have hkk : ¬(k = k') := fun hh => hne hh.symm
  induction l with
  | nil => simp [alGet, alSet, List.find?, hkk]
  | cons p t ih =>
    by_cases h : p.1 = k
    · have hpk : ¬(p.1 = k') := by rw [h]; exact hkk
      simp [alGet, alSet, h, List.find?, hpk, hkk]
    · by_cases h2 : p.1 = k'
      · simp only [alSet, if_neg h]
        simp [alGet, List.find?, h2]
      · simp only [alSet, if_neg h]
        simpa [alGet, List.find?, h2] using ih

theorem formatList_length (n : Nat) (rs : List RawResult) (c : Nat) :
    (formatList c n rs).length = min rs.length n := by
  induction n generalizing rs c with
  | zero => simp [formatList]
  | succ m ih =>
    cases rs with
    | nil => simp [formatList]
    | cons r t =>
      simp only [formatList, List.length_cons, ih]
      omega

theorem formatList_getElem? (n : Nat) (rs : List RawResult) (c i : Nat) :
    (formatList c n rs)[i]? = ((rs.take n)[i]?).map (fun r => formatOne (c + i) r) := by
  induction n generalizing rs c i with
  | zero => simp [formatList]
  | succ m ih =>
    cases rs with
    | nil => simp [formatList]
    | cons r t =>
      cases i with
      | zero => simp [formatList]
      | succ j =>
        have hc : c + 1 + j = c + (j + 1) := by omega
        simp only [formatList, List.take_succ_cons, List.getElem?_cons_succ]
        rw [ih t (c + 1) j, hc]

theorem formatList_mem (n : Nat) (rs : List RawResult) (c : Nat) (p : ProductData)
    (hp : p ∈ formatList c n rs) : ∃ k r, r ∈ rs ∧ p = formatOne k r := by
  induction n generalizing rs c with
  | zero => simp [formatList] at hp
  | succ m ih =>
    cases rs with
    | nil => simp [formatList] at hp
    | cons r t =>
      simp only [formatList, List.mem_cons] at hp
      rcases hp with h | h
      · exact ⟨c, r, by simp, h⟩
      · obtain ⟨k, r', hr', hpe⟩ := ih t (c + 1) h
        exact ⟨k, r', by simp [hr'], hpe⟩

theorem format_eq_formatList (resp : DiscResponse) (results : List RawResult)
    (h : resp.results = some results) :
    format_discovery_response resp = formatList 1 DISCOVERY_KEEP_COUNT results := by
  cases results with
  | nil => simp [format_discovery_response, h, formatList, DISCOVERY_KEEP_COUNT]
  | cons r t => simp [format_discovery_response, h]

theorem formatOne_cart_number (k : Nat) (r : RawResult) :
    (formatOne k r).cart_number = strOfNat k := rfl

theorem pyFindFrom_start_le (pat s : Str) (start j : Nat)
    (h : pyFindFrom pat s start = some j) : start ≤ j := by
  unfold pyFindFrom at h
  cases hf : findFrom pat (s.drop start) 0 with
  | none => rw [hf] at h; simp at h
  | some i => rw [hf] at h; simp at h; omega

theorem rank_foldl_no_match {α : Type} (g : DB → Nat × α → DB) (m : Int)
    (l : List α) (k : Nat) (db : DB)
    (h : ∀ i, i < l.length → ((k + i : Nat) : Int) + 1 ≠ m) :
    (List.enumFrom k l).foldl (fun d p => if ((p.1 : Int) + 1 = m) then g d p else d) db
      = db := by
  induction l generalizing k db with
  | nil => rfl
  | cons a t ih =>
    have h0 : ¬(((k : Nat) : Int) + 1 = m) := by
      have := h 0 (by simp)
      simpa using this
    simp only [List.enumFrom, List.foldl_cons]
    rw [if_neg h0]
    exact ih (k + 1) db (fun i hi => by
      have := h (i + 1) (by simpa using Nat.succ_lt_succ hi)
      have he : k + 1 + i = k + (i + 1) := by omega
      rw [he]; exact this)

theorem rank_foldl_match {α : Type} (g : DB → Nat × α → DB) (m : Int)
    (l : List α) (k : Nat) (db : DB) (i : Nat) (hi : i < l.length)
    (he : ((k + i : Nat) : Int) + 1 = m) :
    (List.enumFrom k l).foldl (fun d p => if ((p.1 : Int) + 1 = m) then g d p else d) db
      = g db (k + i, l.get ⟨i, hi⟩) := by
  induction l generalizing k db i with
  | nil => simp at hi
  | cons a t ih =>
    cases i with
    | zero =>
      have hm : ((k : Int) + 1 = m) := by simpa using he
      simp only [List.enumFrom, List.foldl_cons]
      rw [if_pos hm]
      rw [rank_foldl_no_match g m t (k + 1) (g db (k, a))
        (fun j hj => by
          intro hcon
          have : ((k : Int) + 1 ≠ m) := by push_cast at hcon ⊢; omega
          exact this hm)]
      simp
    | succ j =>
      have hm : ¬((k : Int) + 1 = m) := by push_cast at he ⊢; omega
      simp only [List.enumFrom, List.foldl_cons]
      rw [if_neg hm]
      have hj : j < t.length := by simpa using Nat.lt_of_succ_lt_succ hi
      have he2 : (((k + 1) + j : Nat) : Int) + 1 = m := by push_cast at he ⊢; omega
      have := ih (k + 1) db j hj he2
      rw [this]
      have hk : k + 1 + j = k + (j + 1) := by omega
      simp [hk]

theorem DB.list_add_to_shopping_cart (db : DB) (email : Str) (item : Str) :
    (db.add_to_shopping_cart email item).list_shopping_cart email
      = db.list_shopping_cart email ++ [item] := by
  simp [DB.add_to_shopping_cart, DB.list_shopping_cart, alGet_alSet_self]

theorem run_inner_msgs (disc : Option (Str → DiscResponse)) (filter : ℚ) (msg : Str)
    (trace : List WatsonResp) (st : BotState) :
    ∀ m ∈ (run_inner disc filter msg st trace).2, m = msg := by
  induction trace generalizing st with
  | nil => simp [run_inner]
  | cons wr rest ih =>
    intro m hm
    simp only [run_inner] at hm
    cases hh : handle_message wr disc filter st with
    | none => rw [hh] at hm; simp at hm; exact hm
    | some res =>
      rw [hh] at hm
      obtain ⟨st', gi⟩ := res
      cases gi with
      | true => simp at hm; exact hm
      | false =>
        simp only [List.mem_cons] at hm
        rcases hm with h | h
        · exact h
        · exact ih st' m h

theorem cond_discovery_iff (ctx : Ctx) (hc : Bool) :
    cond_discovery ctx hc = true ↔
      ((∃ v, alGet ctx discovery_string_key = some v ∧ truthy v = true) ∧ hc = true) := by
  unfold cond_discovery
  cases h : alGet ctx discovery_string_key <;> simp [h]

theorem cond_cart_list_iff (ctx : Ctx) :
    cond_cart_list ctx = true ↔
      alGet ctx shopping_cart_key = some (CtxVal.str ("list".toList)) := by
  unfold cond_cart_list
  cases h : alGet ctx shopping_cart_key with
  | none => simp
  | some v => cases v <;> simp [val_eq_str]

theorem cond_cart_add_iff (ctx : Ctx) :
    cond_cart_add ctx = true ↔
      (alGet ctx shopping_cart_key = some (CtxVal.str ("add".toList)) ∧
       (∃ v, alGet ctx cart_item_key = some v ∧ val_ne_empty v = true)) := by
  unfold cond_cart_add
  cases h : alGet ctx shopping_cart_key with
  | none => simp
  | some v =>
    cases h2 : alGet ctx cart_item_key with
    | none => cases v <;> simp [val_eq_str]
    | some w => cases v <;> simp [val_eq_str]

theorem cond_cart_delete_iff (ctx : Ctx) :
    cond_cart_delete ctx = true ↔
      (alGet ctx shopping_cart_key = some (CtxVal.str ("delete".toList)) ∧
       (∃ v, alGet ctx cart_item_key = some v ∧ val_ne_empty v = true)) := by
  unfold cond_cart_delete
  cases h : alGet ctx shopping_cart_key with
  | none => simp
  | some v =>
    cases h2 : alGet ctx cart_item_key with
    | none => cases v <;> simp [val_eq_str]
    | some w => cases v <;> simp [val_eq_str]

theorem cond_no_input_iff (ctx : Ctx) :
    cond_no_input ctx = true ↔
      alGet ctx get_input_key = some (CtxVal.str ("no".toList)) := by
  unfold cond_no_input
  cases h : alGet ctx get_input_key with
  | none => simp
  | some v => cases v <;> simp [val_eq_str]

/-- C3: after every dialogue-engine turn, `handle_message` inspects the
context flags in the fixed source order and executes only the first branch
whose condition holds: (1) non-empty `discovery_string` with a configured
search client, (2) `shopping_cart == 'list'`, (3) `shopping_cart == 'add'`
with non-empty `cart_item`, (4) `shopping_cart == 'delete'` with non-empty
`cart_item`, (5) `get_input == 'no'` (no new input), (6) otherwise return
to awaiting the next transport message. -/
theorem wos_C3_dispatch_priority (ctx : Ctx) (hc : Bool) :
    (((∃ v, alGet ctx discovery_string_key = some v ∧ truthy v = true) ∧ hc = true) →
        dispatch_branch ctx hc = Branch.discovery) ∧
    ((¬((∃ v, alGet ctx discovery_string_key = some v ∧ truthy v = true) ∧ hc = true) ∧
        alGet ctx shopping_cart_key = some (CtxVal.str ("list".toList))) →
        dispatch_branch ctx hc = Branch.cartList) ∧
    ((¬((∃ v, alGet ctx discovery_string_key = some v ∧ truthy v = true) ∧ hc = true) ∧
        ¬(alGet ctx shopping_cart_key = some (CtxVal.str ("list".toList))) ∧
        (alGet ctx shopping_cart_key = some (CtxVal.str ("add".toList)) ∧
          (∃ v, alGet ctx cart_item_key = some v ∧ val_ne_empty v = true))) →
        dispatch_branch ctx hc = Branch.cartAdd) ∧
    ((¬((∃ v, alGet ctx discovery_string_key = some v ∧ truthy v = true) ∧ hc = true) ∧
        ¬(alGet ctx shopping_cart_key = some (CtxVal.str ("list".toList))) ∧
        ¬(alGet ctx shopping_cart_key = some (CtxVal.str ("add".toList)) ∧
          (∃ v, alGet ctx cart_item_key = some v ∧ val_ne_empty v = true)) ∧
        (alGet ctx shopping_cart_key = some (CtxVal.str ("delete".toList)) ∧
          (∃ v, alGet ctx cart_item_key = some v ∧ val_ne_empty v = true))) →
        dispatch_branch ctx hc = Branch.cartDelete) ∧
    ((¬((∃ v, alGet ctx discovery_string_key = some v ∧ truthy v = true) ∧ hc = true) ∧
        ¬(alGet ctx shopping_cart_key = some (CtxVal.str ("list".toList))) ∧
        ¬(alGet ctx shopping_cart_key = some (CtxVal.str ("add".toList)) ∧
          (∃ v, alGet ctx cart_item_key = some v ∧ val_ne_empty v = true)) ∧
        ¬(alGet ctx shopping_cart_key = some (CtxVal.str ("delete".toList)) ∧
          (∃ v, alGet ctx cart_item_key = some v ∧ val_ne_empty v = true)) ∧
        alGet ctx get_input_key = some (CtxVal.str ("no".toList))) →
        dispatch_branch ctx hc = Branch.noInput) ∧
    ((¬((∃ v, alGet ctx discovery_string_key = some v ∧ truthy v = true) ∧ hc = true) ∧
        ¬(alGet ctx shopping_cart_key = some (CtxVal.str ("list".toList))) ∧
        ¬(alGet ctx shopping_cart_key = some (CtxVal.str ("add".toList)) ∧
          (∃ v, alGet ctx cart_item_key = some v ∧ val_ne_empty v = true)) ∧
        ¬(alGet ctx shopping_cart_key = some (CtxVal.str ("delete".toList)) ∧
          (∃ v, alGet ctx cart_item_key = some v ∧ val_ne_empty v = true)) ∧
        ¬(alGet ctx get_input_key = some (CtxVal.str ("no".toList)))) →
        dispatch_branch ctx hc = Branch.awaitInput) := by
  refine ⟨fun h => ?_, fun h => ?_, fun h => ?_, fun h => ?_, fun h => ?_, fun h => ?_⟩
  · have h1 : cond_discovery ctx hc = true := (cond_discovery_iff ctx hc).2 h
    simp [dispatch_branch, h1]
  · have h1 : cond_discovery ctx hc = false :=
      Bool.eq_false_iff.2 (fun hx => h.1 ((cond_discovery_iff ctx hc).1 hx))
    have h2 : cond_cart_list ctx = true := (cond_cart_list_iff ctx).2 h.2
    simp [dispatch_branch, h1, h2]
  · have h1 : cond_discovery ctx hc = false :=
      Bool.eq_false_iff.2 (fun hx => h.1 ((cond_discovery_iff ctx hc).1 hx))
    have h2 : cond_cart_list ctx = false :=
      Bool.eq_false_iff.2 (fun hx => h.2.1 ((cond_cart_list_iff ctx).1 hx))
    have h3 : cond_cart_add ctx = true := (cond_cart_add_iff ctx).2 h.2.2
    simp [dispatch_branch, h1, h2, h3]
  · have h1 : cond_discovery ctx hc = false :=
      Bool.eq_false_iff.2 (fun hx => h.1 ((cond_discovery_iff ctx hc).1 hx))
    have h2 : cond_cart_list ctx = false :=
      Bool.eq_false_iff.2 (fun hx => h.2.1 ((cond_cart_list_iff ctx).1 hx))
    have h3 : cond_cart_add ctx = false :=
      Bool.eq_false_iff.2 (fun hx => h.2.2.1 ((cond_cart_add_iff ctx).1 hx))
    have h4 : cond_cart_delete ctx = true := (cond_cart_delete_iff ctx).2 h.2.2.2
    simp [dispatch_branch, h1, h2, h3, h4]
  · have h1 : cond_discovery ctx hc = false :=
      Bool.eq_false_iff.2 (fun hx => h.1 ((cond_discovery_iff ctx hc).1 hx))
    have h2 : cond_cart_list ctx = false :=
      Bool.eq_false_iff.2 (fun hx => h.2.1 ((cond_cart_list_iff ctx).1 hx))
    have h3 : cond_cart_add ctx = false :=
      Bool.eq_false_iff.2 (fun hx => h.2.2.1 ((cond_cart_add_iff ctx).1 hx))
    have h4 : cond_cart_delete ctx = false :=
      Bool.eq_false_iff.2 (fun hx => h.2.2.2.1 ((cond_cart_delete_iff ctx).1 hx))
    have h5 : cond_no_input ctx = true := (cond_no_input_iff ctx).2 h.2.2.2.2
    simp [dispatch_branch, h1, h2, h3, h4, h5]
  · have h1 : cond_discovery ctx hc = false :=
      Bool.eq_false_iff.2 (fun hx => h.1 ((cond_discovery_iff ctx hc).1 hx))
    have h2 : cond_cart_list ctx = false :=
      Bool.eq_false_iff.2 (fun hx => h.2.1 ((cond_cart_list_iff ctx).1 hx))
    have h3 : cond_cart_add ctx = false :=
      Bool.eq_false_iff.2 (fun hx => h.2.2.1 ((cond_cart_add_iff ctx).1 hx))
    have h4 : cond_cart_delete ctx = false :=
      Bool.eq_false_iff.2 (fun hx => h.2.2.2.1 ((cond_cart_delete_iff ctx).1 hx))
    have h5 : cond_no_input ctx = false :=
      Bool.eq_false_iff.2 (fun hx => h.2.2.2.2 ((cond_no_input_iff ctx).1 hx))
    simp [dispatch_branch, h1, h2, h3, h4, h5]

theorem wos_C3_witness :
    dispatch_branch
        [(discovery_string_key, CtxVal.str ("shoes".toList)),
         (shopping_cart_key, CtxVal.str ("list".toList))] true = Branch.discovery ∧
    dispatch_branch [(shopping_cart_key, CtxVal.str ("list".toList))] true
      = Branch.cartList :=
  ⟨(wos_C3_dispatch_priority _ true).1
      ⟨⟨CtxVal.str ("shoes".toList), by decide, by decide⟩, rfl⟩,
   (wos_C3_dispatch_priority _ true).2.1 ⟨by decide, by decide⟩⟩

/-- C4: whenever a turn of `handle_message` signals "no input required"
(returns `False`), the `run` loop immediately performs another
dialogue-engine turn with the same original message text, without reading a
new transport event; it returns to polling the transport exactly when a
turn signals that input is required.  Every message text submitted to the
engine during the inner loop equals the original message. -/
theorem wos_C4_same_message_loop (disc : Option (Str → DiscResponse)) (filter : ℚ)
    (msg : Str) (st : BotState) (wr : WatsonResp) (rest : List WatsonResp)
    (st' : BotState) :
    (handle_message wr disc filter st = some (st', true) →
        run_inner disc filter msg st (wr :: rest) = (LoopOutcome.awaiting st', [msg])) ∧
    (handle_message wr disc filter st = some (st', false) →
        run_inner disc filter msg st (wr :: rest) =
          ((run_inner disc filter msg st' rest).1,
           msg :: (run_inner disc filter msg st' rest).2)) ∧
    (∀ m ∈ (run_inner disc filter msg st (wr :: rest)).2, m = msg) := by
  refine ⟨fun h => ?_, fun h => ?_, run_inner_msgs disc filter msg (wr :: rest) st⟩
  · simp [run_inner, h]
  · simp [run_inner, h]

theorem wos_C4_witness :
    run_inner none 0 ("hi".toList)
        ⟨[], some ⟨"a@b".toList, [], [], []⟩, none, ⟨[], []⟩, []⟩
        [⟨some [(shopping_cart_key, CtxVal.str ("list".toList))], []⟩, ⟨none, []⟩]
      = (LoopOutcome.awaiting
          ⟨[(shopping_cart_key, CtxVal.str [])], some ⟨"a@b".toList, [], [], []⟩, none,
           ⟨[], []⟩, [[], []]⟩,
         ["hi".toList, "hi".toList]) := by
  have h1 := (wos_C4_same_message_loop none 0 ("hi".toList)
      ⟨[], some ⟨"a@b".toList, [], [], []⟩, none, ⟨[], []⟩, []⟩
      ⟨some [(shopping_cart_key, CtxVal.str ("list".toList))], []⟩ [⟨none, []⟩]
      ⟨[(shopping_cart_key, CtxVal.str [])], some ⟨"a@b".toList, [], [], []⟩, none,
       ⟨[], []⟩, [[]]⟩).2.1 (by decide)
  have h2 := (wos_C4_same_message_loop none 0 ("hi".toList)
      ⟨[(shopping_cart_key, CtxVal.str [])], some ⟨"a@b".toList, [], [], []⟩, none,
       ⟨[], []⟩, [[]]⟩ ⟨none, []⟩ []
      ⟨[(shopping_cart_key, CtxVal.str [])], some ⟨"a@b".toList, [], [], []⟩, none,
       ⟨[], []⟩, [[], []]⟩).1 (by decide)
  rw [h1, h2]

/-- C5: with a positive score-filter threshold configured, the search
dispatch keeps exactly the raw results scoring strictly above the
threshold (every result scoring at or below it is removed), sets
`matching_results` to the surviving count, and formats the filtered
response. -/
theorem wos_C5_score_filter (filter : ℚ) (resp : DiscResponse) (rs : List RawResult)
    (hpos : 0 < filter) (hres : resp.results = some rs) :
    (apply_score_filter filter resp).results = some (rs.filter (score_keep filter)) ∧
    (apply_score_filter filter resp).matching_results
      = some (((rs.filter (score_keep filter)).length : Int)) ∧
    (∀ x ∈ rs, ∀ sc, x.score = some sc → sc ≤ filter →
        x ∉ ((apply_score_filter filter resp).results.getD [])) ∧
    (get_discovery_response filter resp).response_tuple
      = format_discovery_response (apply_score_filter filter resp) := by
  have hne : filter ≠ 0 := ne_of_gt hpos
  have h1 : (apply_score_filter filter resp).results = some (rs.filter (score_keep filter)) := by
    simp [apply_score_filter, hne, hres]
  refine ⟨h1, by simp [apply_score_filter, hne, hres], ?_, rfl⟩
  intro x hx sc hsc hle hmem
  rw [h1] at hmem
  simp only [Option.getD_some, List.mem_filter] at hmem
  have := hmem.2
  rw [score_keep, hsc] at this
  simp at this
  exact absurd hle (not_le.2 this)

theorem wos_C5_witness :
    (apply_score_filter (mkRat 1 2)
          ⟨some [⟨none, none, some (mkRat 9 10)⟩, ⟨none, none, some (mkRat 3 10)⟩,
                 ⟨none, none, some (mkRat 6 10)⟩], none⟩).results
      = some [⟨none, none, some (mkRat 9 10)⟩, ⟨none, none, some (mkRat 6 10)⟩] ∧
    (apply_score_filter (mkRat 1 2)
          ⟨some [⟨none, none, some (mkRat 9 10)⟩, ⟨none, none, some (mkRat 3 10)⟩,
                 ⟨none, none, some (mkRat 6 10)⟩], none⟩).matching_results
      = some 2 := by
  have h := wos_C5_score_filter (mkRat 1 2)
      ⟨some [⟨none, none, some (mkRat 9 10)⟩, ⟨none, none, some (mkRat 3 10)⟩,
             ⟨none, none, some (mkRat 6 10)⟩], none⟩
      [⟨none, none, some (mkRat 9 10)⟩, ⟨none, none, some (mkRat 3 10)⟩,
       ⟨none, none, some (mkRat 6 10)⟩]
      (by decide) rfl
  refine ⟨h.1.trans (by decide), h.2.1.trans (by decide)⟩

/-- C6: for a raw result list of length `n`, the formatter returns exactly
`min n 5` records, in input order, with 1-based contiguous ascending
`cart_number` index fields; results beyond the keep count of 5 are silently
ignored. -/
theorem wos_C6_format_shape (resp : DiscResponse) (results : List RawResult)
    (h : resp.results = some results) :
    (format_discovery_response resp).length = min results.length 5 ∧
    (∀ i : Nat, (format_discovery_response resp)[i]?
        = ((results.take 5)[i]?).map (fun r => formatOne (i + 1) r)) ∧
    (∀ i : Nat, ((format_discovery_response resp)[i]?).map ProductData.cart_number
        = ((results.take 5)[i]?).map (fun _ => strOfNat (i + 1))) := by
  have hfe := format_eq_formatList resp results h
  have hget : ∀ i : Nat, (format_discovery_response resp)[i]?
      = ((results.take 5)[i]?).map (fun r => formatOne (i + 1) r) := by
    intro i
    rw [hfe, formatList_getElem? DISCOVERY_KEEP_COUNT results 1 i]
    have h1 : 1 + i = i + 1 := by omega
    rw [h1]
    rfl
  refine ⟨?_, hget, ?_⟩
  · rw [hfe, formatList_length]
    rfl
  · intro i
    rw [hget i, Option.map_map]
    cases (results.take 5)[i]? <;> simp [formatOne_cart_number]

theorem wos_C6_witness :
    (format_discovery_response ⟨some [⟨none, none, none⟩, ⟨none, none, none⟩], none⟩).length
        = min 2 5 ∧
    (format_discovery_response ⟨some [⟨none, none, none⟩, ⟨none, none, none⟩], none⟩)[1]?
        = some (formatOne 2 ⟨none, none, none⟩) ∧
    ((format_discovery_response ⟨some [⟨none, none, none⟩, ⟨none, none, none⟩], none⟩)[1]?).map
          ProductData.cart_number
        = some (strOfNat 2) := by
  have h := wos_C6_format_shape ⟨some [⟨none, none, none⟩, ⟨none, none, none⟩], none⟩
      [⟨none, none, none⟩, ⟨none, none, none⟩] rfl
  exact ⟨h.1, (h.2.1 1).trans (by decide), (h.2.2 1).trans (by decide)⟩

/-- C7: cart add with a numeric rank `r`: when `r` is the 1-based index of
an entry of the most recent search result list, exactly one item — the
`"<name>: <url>\n"` line of that entry — is appended to the datastore-backed
cart; when `r` is outside the range, the datastore is unchanged (silent
no-op). -/
theorem wos_C7_add_by_rank (ctx : Ctx) (cu : Customer) (db : DB)
    (rt : List ProductData) (s : Str) (r : Int)
    (h1 : alGet ctx cart_item_key = some (CtxVal.str s))
    (h2 : pyInt s = some r) :
    (∀ i (hi : i < rt.length), r = (i : Int) + 1 →
        handle_add_to_cart ctx (some cu) db (some rt)
          = some (clear_shopping_cart ctx,
                  db.add_to_shopping_cart cu.email
                    ((rt.get ⟨i, hi⟩).name ++ (": ".toList) ++ (rt.get ⟨i, hi⟩).url
                      ++ ("\n".toList)),
                  false) ∧
        (db.add_to_shopping_cart cu.email
            ((rt.get ⟨i, hi⟩).name ++ (": ".toList) ++ (rt.get ⟨i, hi⟩).url
              ++ ("\n".toList))).list_shopping_cart cu.email
          = db.list_shopping_cart cu.email
            ++ [(rt.get ⟨i, hi⟩).name ++ (": ".toList) ++ (rt.get ⟨i, hi⟩).url
                  ++ ("\n".toList)]) ∧
    ((∀ i : Nat, i < rt.length → r ≠ (i : Int) + 1) →
        handle_add_to_cart ctx (some cu) db (some rt)
          = some (clear_shopping_cart ctx, db, false)) := by
  constructor
  · intro i hi hr
    refine ⟨?_, DB.list_add_to_shopping_cart db cu.email _⟩
    simp only [handle_add_to_cart, h1, h2]
    rw [show rt.enum = List.enumFrom 0 rt from rfl]
    rw [rank_foldl_match
        (fun d p => d.add_to_shopping_cart cu.email
          (p.2.name ++ (": ".toList) ++ p.2.url ++ ("\n".toList)))
        r rt 0 db i hi (by push_cast; omega)]
  · intro hno
    simp only [handle_add_to_cart, h1, h2]
    rw [show rt.enum = List.enumFrom 0 rt from rfl]
    rw [rank_foldl_no_match
        (fun d p => d.add_to_shopping_cart cu.email
          (p.2.name ++ (": ".toList) ++ p.2.url ++ ("\n".toList)))
        r rt 0 db
        (fun i hi => by
          have := hno i hi
          push_cast
          omega)]

theorem wos_C7_witness :
    handle_add_to_cart [(cart_item_key, CtxVal.str ("2".toList))]
        (some ⟨"e@x".toList, [], [], []⟩) ⟨[], []⟩
        (some [⟨"1".toList, "A".toList, "u1".toList, []⟩,
               ⟨"2".toList, "B".toList, "u2".toList, []⟩])
      = some (clear_shopping_cart [(cart_item_key, CtxVal.str ("2".toList))],
              DB.add_to_shopping_cart ⟨[], []⟩ ("e@x".toList) ("B: u2\n".toList),
              false) ∧
    (DB.add_to_shopping_cart ⟨[], []⟩ ("e@x".toList)
          ("B: u2\n".toList)).list_shopping_cart ("e@x".toList)
      = [("B: u2\n".toList)] := by
  have h := (wos_C7_add_by_rank [(cart_item_key, CtxVal.str ("2".toList))]
      ⟨"e@x".toList, [], [], []⟩ ⟨[], []⟩
      [⟨"1".toList, "A".toList, "u1".toList, []⟩,
       ⟨"2".toList, "B".toList, "u2".toList, []⟩]
      ("2".toList) 2 (by decide) (by decide)).1 1 (by decide) (by decide)
  exact ⟨h.1.trans (by decide), h.2.trans (by decide)⟩

theorem formatOne_url_empty (k : Nat) (r : RawResult)
    (h : ∀ html, r.html = some html → pyFind href_tag html = none) :
    (formatOne k r).url = [] := by
  obtain ⟨oh, ot, osc⟩ := r
  cases oh with
  | none => simp [formatOne, slack_encode]
  | some html => simp [formatOne, slack_encode, h html rfl]

theorem formatOne_image_empty (k : Nat) (r : RawResult)
    (h : ∀ html, r.html = some html → pyFind img_tag html = none) :
    (formatOne k r).image = [] := by
  obtain ⟨oh, ot, osc⟩ := r
  cases oh with
  | none => simp [formatOne, slack_encode]
  | some html => simp [formatOne, slack_encode, h html rfl]

theorem formatOne_name_empty (k : Nat) (r : RawResult)
    (h : ∀ text, r.text = some text → pyFind product_tag text = none) :
    (formatOne k r).name = [] := by
  obtain ⟨oh, ot, osc⟩ := r
  cases ot with
  | none => simp [formatOne, slack_encode]
  | some text => simp [formatOne, slack_encode, h text rfl]

/-- C9: the Result Formatter is total on arbitrary raw results: every kept
raw result yields an actual output record (never an error), and each output
field is independent — whenever a particular marker is absent from its
HTML/text field (including the field itself being missing from the result
dict), the corresponding output field of that result's record is the empty
string, regardless of whether the other markers are present. -/
theorem wos_C9_formatter_total (resp : DiscResponse) (results : List RawResult)
    (hres : resp.results = some results) :
    (format_discovery_response resp).length = min results.length 5 ∧
    (∀ i : Nat, ∀ r, (results.take 5)[i]? = some r →
      ∃ p, (format_discovery_response resp)[i]? = some p ∧
        ((∀ html, r.html = some html → pyFind href_tag html = none) → p.url = []) ∧
        ((∀ html, r.html = some html → pyFind img_tag html = none) → p.image = []) ∧
        ((∀ text, r.text = some text → pyFind product_tag text = none) → p.name = [])) := by
  have hfe := format_eq_formatList resp results hres
  constructor
  · rw [hfe, formatList_length]
    rfl
  · intro i r hr
    refine ⟨formatOne (i + 1) r, ?_,
      fun h => formatOne_url_empty (i + 1) r h,
      fun h => formatOne_image_empty (i + 1) r h,
      fun h => formatOne_name_empty (i + 1) r h⟩
    rw [hfe, formatList_getElem? DISCOVERY_KEEP_COUNT results 1 i]
    have h1 : 1 + i = i + 1 := by omega
    rw [h1]
    have h2 : (results.take DISCOVERY_KEEP_COUNT)[i]? = some r := by
      simpa [DISCOVERY_KEEP_COUNT] using hr
    rw [h2]
    rfl

theorem wos_C9_witness :
    (format_discovery_response
        ⟨some [⟨some ("x/ProductDetail.aspx?pid=123456".toList),
                some ("plain text".toList), none⟩], none⟩)[0]?
      = some (formatOne 1 ⟨some ("x/ProductDetail.aspx?pid=123456".toList),
          some ("plain text".toList), none⟩) ∧
    (formatOne 1 ⟨some ("x/ProductDetail.aspx?pid=123456".toList),
        some ("plain text".toList), none⟩).name = [] ∧
    (formatOne 1 ⟨some ("x/ProductDetail.aspx?pid=123456".toList),
        some ("plain text".toList), none⟩).image = [] := by
  obtain ⟨p, hp, hurl, himg, hname⟩ :=
    (wos_C9_formatter_total
      ⟨some [⟨some ("x/ProductDetail.aspx?pid=123456".toList),
              some ("plain text".toList), none⟩], none⟩
      [⟨some ("x/ProductDetail.aspx?pid=123456".toList),
        some ("plain text".toList), none⟩] rfl).2 0
      ⟨some ("x/ProductDetail.aspx?pid=123456".toList),
        some ("plain text".toList), none⟩ (by decide)
  have hpe : some p = some (formatOne 1 ⟨some ("x/ProductDetail.aspx?pid=123456".toList),
      some ("plain text".toList), none⟩) := by
    rw [← hp]
    decide
  have hpe2 := Option.some_injective _ hpe
  subst hpe2
  refine ⟨hp, hname ?_, himg ?_⟩
  · intro text ht
    have hte : text = "plain text".toList := by simpa using ht.symm
    subst hte
    decide
  · intro html hh
    have hhe : html = "x/ProductDetail.aspx?pid=123456".toList := by simpa using hh.symm
    subst hhe
    decide

/-- C10 (implicit): the formatter extracts a field only when its marker is
found at a strictly positive offset (`find(...) > 0` in the source); a
marker whose first occurrence is at offset 0 of the HTML or text field is
treated the same as an absent marker, yielding an empty string for that
field. -/
theorem wos_C10_offset_zero (r : RawResult) (k : Nat) :
    (∀ html, r.html = some html → pyFind href_tag html = some 0 →
        (formatOne k r).url = []) ∧
    (∀ html, r.html = some html → pyFind img_tag html = some 0 →
        (formatOne k r).image = []) ∧
    (∀ text, r.text = some text → pyFind product_tag text = some 0 →
        (formatOne k r).name = []) := by
  obtain ⟨oh, ot, osc⟩ := r
  refine ⟨fun html hh hf => ?_, fun html hh hf => ?_, fun text ht hf => ?_⟩
  · cases oh with
    | none => simp at hh
    | some h0 =>
      have : h0 = html := by simpa using hh
      subst this
      cases ot <;> simp [formatOne, hf, slack_encode]
  · cases oh with
    | none => simp at hh
    | some h0 =>
      have : h0 = html := by simpa using hh
      subst this
      cases ot <;> simp [formatOne, hf, slack_encode]
  · cases ot with
    | none => simp at ht
    | some t0 =>
      have : t0 = text := by simpa using ht
      subst this
      cases oh <;> simp [formatOne, hf, slack_encode]

theorem wos_C10_witness :
    (formatOne 1 ⟨some ("/ProductDetail.aspx?pid=123456".toList),
        some ("Product:A Category:B".toList), none⟩).url = [] ∧
    (formatOne 1 ⟨some ("/ProductDetail.aspx?pid=123456".toList),
        some ("Product:A Category:B".toList), none⟩).name = [] :=
  ⟨(wos_C10_offset_zero ⟨some ("/ProductDetail.aspx?pid=123456".toList),
        some ("Product:A Category:B".toList), none⟩ 1).1
      ("/ProductDetail.aspx?pid=123456".toList) rfl (by decide),
   (wos_C10_offset_zero ⟨some ("/ProductDetail.aspx?pid=123456".toList),
        some ("Product:A Category:B".toList), none⟩ 1).2.2
      ("Product:A Category:B".toList) rfl (by decide)⟩

/-- C1 counterexample: with `shopping_cart == 'add'` and a non-numeric
`cart_item`, `handle_add_to_cart` aborts *before* `clear_shopping_cart`:
both cart context keys keep their old values instead of being cleared. -/
theorem wos_C1_counterexample :
    handle_add_to_cart
        [(shopping_cart_key, CtxVal.str ("add".toList)),
         (cart_item_key, CtxVal.str ("abc".toList))]
        (some ⟨"e@x".toList, [], [], []⟩) ⟨[], []⟩ (some [])
      = some ([(shopping_cart_key, CtxVal.str ("add".toList)),
               (cart_item_key, CtxVal.str ("abc".toList))],
              ⟨[], []⟩, false) ∧
    alGet [(shopping_cart_key, CtxVal.str ("add".toList)),
           (cart_item_key, CtxVal.str ("abc".toList))] shopping_cart_key
      ≠ some (CtxVal.str []) ∧
    alGet [(shopping_cart_key, CtxVal.str ("add".toList)),
           (cart_item_key, CtxVal.str ("abc".toList))] cart_item_key
      ≠ some (CtxVal.str []) := by
  decide

/-- C1 amended: add and delete with a numeric `cart_item` clear both
`shopping_cart` and `cart_item` to the empty string whether or not the
datastore action matched anything; with a non-numeric `cart_item` they log,
abort, and leave the context (and datastore) unchanged; the list operation
instead sets `shopping_cart` to the formatted cart listing and leaves
`cart_item` untouched. -/
theorem wos_C1_cart_flags (ctx : Ctx) (cu : Customer) (db : DB)
    (rt : List ProductData) (s : Str) :
    (∀ r : Int, alGet ctx cart_item_key = some (CtxVal.str s) → pyInt s = some r →
        (∃ db1, handle_add_to_cart ctx (some cu) db (some rt)
            = some (clear_shopping_cart ctx, db1, false)) ∧
        (∃ db2, handle_delete_from_cart ctx (some cu) db
            = some (clear_shopping_cart ctx, db2, false)) ∧
        alGet (clear_shopping_cart ctx) shopping_cart_key = some (CtxVal.str []) ∧
        alGet (clear_shopping_cart ctx) cart_item_key = some (CtxVal.str [])) ∧
    (alGet ctx cart_item_key = some (CtxVal.str s) → pyInt s = none →
        handle_add_to_cart ctx (some cu) db (some rt) = some (ctx, db, false) ∧
        handle_delete_from_cart ctx (some cu) db = some (ctx, db, false)) ∧
    (handle_list_shopping_cart ctx cu.email db
        = (alSet ctx shopping_cart_key
            (CtxVal.str (cart_listing (db.list_shopping_cart cu.email))), false) ∧
     alGet (alSet ctx shopping_cart_key
          (CtxVal.str (cart_listing (db.list_shopping_cart cu.email)))) cart_item_key
        = alGet ctx cart_item_key) := by
  refine ⟨fun r h1 h2 => ?_, fun h1 h2 => ?_, rfl, ?_⟩
  · refine ⟨⟨_, by simp only [handle_add_to_cart, h1, h2]; rfl⟩,
      ⟨_, by simp only [handle_delete_from_cart, h1, h2]; rfl⟩, ?_, ?_⟩
    · rw [clear_shopping_cart,
        alGet_alSet_of_ne _ cart_item_key shopping_cart_key _ (by decide),
        alGet_alSet_self]
    · rw [clear_shopping_cart, alGet_alSet_self]
  · exact ⟨by simp only [handle_add_to_cart, h1, h2],
      by simp only [handle_delete_from_cart, h1, h2]⟩
  · rw [alGet_alSet_of_ne _ shopping_cart_key cart_item_key _ (by decide)]

theorem wos_C1_cart_flags_witness :
    (∃ db1, handle_add_to_cart [(cart_item_key, CtxVal.str ("1".toList))]
        (some ⟨"e@x".toList, [], [], []⟩) ⟨[], []⟩ (some [])
        = some (clear_shopping_cart [(cart_item_key, CtxVal.str ("1".toList))], db1, false)) ∧
    (∃ db2, handle_delete_from_cart [(cart_item_key, CtxVal.str ("1".toList))]
        (some ⟨"e@x".toList, [], [], []⟩) ⟨[], []⟩
        = some (clear_shopping_cart [(cart_item_key, CtxVal.str ("1".toList))], db2, false)) ∧
    alGet (clear_shopping_cart [(cart_item_key, CtxVal.str ("1".toList))])
        shopping_cart_key = some (CtxVal.str []) ∧
    alGet (clear_shopping_cart [(cart_item_key, CtxVal.str ("1".toList))])
        cart_item_key = some (CtxVal.str []) :=
  (wos_C1_cart_flags [(cart_item_key, CtxVal.str ("1".toList))]
      ⟨"e@x".toList, [], [], []⟩ ⟨[], []⟩ [] ("1".toList)).1 1 (by decide) (by decide)

/-- C2 counterexample: the stored record has a non-empty cart, the resolver
finds it, yet the bound session Customer has an empty `shopping_cart`
(`customer_from_db` passes `shopping_cart=[]`), so the cart is not
preserved from storage. -/
theorem wos_C2_counterexample :
    DB.find_customer ⟨[("a@b.com".toList,
          ⟨"a@b.com".toList, "A".toList, "B".toList, ["item1".toList]⟩)], []⟩
        ("a@b.com".toList)
      = some ⟨"a@b.com".toList, "A".toList, "B".toList, ["item1".toList]⟩ ∧
    (init_customer
        (some ⟨some ⟨some ⟨some ("a@b.com".toList), "A".toList, "B".toList⟩⟩⟩)
        ⟨[], none, none,
         ⟨[("a@b.com".toList,
            ⟨"a@b.com".toList, "A".toList, "B".toList, ["item1".toList]⟩)], []⟩,
         []⟩).customer.map Customer.shopping_cart
      = some [] ∧
    some ([] : List Str) ≠ some [("item1".toList)] := by
  decide

/-- C2 amended: when the resolver finds the chat identity's email in the
datastore, it binds a session Customer whose email and names come from the
stored record but whose `shopping_cart` is initialised to the empty list
(the datastore stays the source of truth for cart contents); the datastore
is not written on this path, and the customer dict is merged into the
context. -/
theorem wos_C2_bind_found (uj : SlackUserJson) (u : SlackUser) (p : SlackProfile)
    (e : Str) (ud : Customer) (st : BotState)
    (hu : uj.user = some u) (hp : u.profile = some p) (he : p.email = some e)
    (hne : e.isEmpty = false) (hfind : st.db.find_customer e = some ud) :
    (init_customer (some uj) st).customer = some (customer_from_db ud) ∧
    (customer_from_db ud).email = ud.email ∧
    (customer_from_db ud).first_name = ud.first_name ∧
    (customer_from_db ud).last_name = ud.last_name ∧
    (customer_from_db ud).shopping_cart = [] ∧
    (init_customer (some uj) st).db = st.db ∧
    (init_customer (some uj) st).context
      = context_merge st.context (get_customer_dict (customer_from_db ud)) := by
  have hinit : init_customer (some uj) st
      = add_customer_to_context { st with customer := some (customer_from_db ud) } := by
    simp only [init_customer, hu, hp, he, hne, hfind]
    simp
  rw [hinit]
  simp [add_customer_to_context, customer_from_db]

theorem wos_C2_bind_found_witness :
    (init_customer
        (some ⟨some ⟨some ⟨some ("a@b.com".toList), "A".toList, "B".toList⟩⟩⟩)
        ⟨[], none, none,
         ⟨[("a@b.com".toList,
            ⟨"a@b.com".toList, "Ann".toList, "B".toList, ["x".toList]⟩)], []⟩,
         []⟩).customer
      = some (customer_from_db
          ⟨"a@b.com".toList, "Ann".toList, "B".toList, ["x".toList]⟩) ∧
    (customer_from_db
        ⟨"a@b.com".toList, "Ann".toList, "B".toList, ["x".toList]⟩).email
      = ("a@b.com".toList) ∧
    (customer_from_db
        ⟨"a@b.com".toList, "Ann".toList, "B".toList, ["x".toList]⟩).shopping_cart
      = [] := by
  have h := wos_C2_bind_found
      ⟨some ⟨some ⟨some ("a@b.com".toList), "A".toList, "B".toList⟩⟩⟩
      ⟨some ⟨some ("a@b.com".toList), "A".toList, "B".toList⟩⟩
      ⟨some ("a@b.com".toList), "A".toList, "B".toList⟩
      ("a@b.com".toList)
      ⟨"a@b.com".toList, "Ann".toList, "B".toList, ["x".toList]⟩
      ⟨[], none, none,
       ⟨[("a@b.com".toList,
          ⟨"a@b.com".toList, "Ann".toList, "B".toList, ["x".toList]⟩)], []⟩,
       []⟩
      rfl rfl rfl (by decide) (by decide)
  exact ⟨h.1, h.2.1.trans (by decide), h.2.2.2.2.1⟩

/-- C8 counterexample: on a concrete result, the formatted link is the
escape-transformed URL (`&` becomes `&amp;`), not the raw concatenation the
claim states, and the formatted title stops one character *before* the
`Category:` marker (`text[sidx:eidx-1]` in the source), not at the marker. -/
theorem wos_C8_counterexample :
    (formatOne 1 ⟨some ("x/ProductDetail.aspx?pid=A&BCDE".toList),
        some ("yProduct:ABCCategory:z".toList), none⟩).url
      ≠ url_start ++ href_tag ++ ("A&BCDE".toList) ∧
    (formatOne 1 ⟨some ("x/ProductDetail.aspx?pid=A&BCDE".toList),
        some ("yProduct:ABCCategory:z".toList), none⟩).name
      ≠ ("ABC".toList) ∧
    (formatOne 1 ⟨some ("x/ProductDetail.aspx?pid=A&BCDE".toList),
        some ("yProduct:ABCCategory:z".toList), none⟩).url
      = slack_encode (url_start ++ href_tag ++ ("A&BCDE".toList)) ∧
    (formatOne 1 ⟨some ("x/ProductDetail.aspx?pid=A&BCDE".toList),
        some ("yProduct:ABCCategory:z".toList), none⟩).name
      = ("AB".toList) := by
  decide

/-- C8 amended: when the href marker's first occurrence in the HTML field
and the `Product:` marker's first occurrence in the text field are at
strictly positive offsets and a `Category:` marker follows, the link field
is the escape transform of the fixed base URL concatenated with the href
marker and the (up to) 6 characters following the marker occurrence, and
the title field is the escape transform of the substring starting right
after `Product:` and ending one character before the next `Category:`
marker. -/
theorem wos_C8_extraction (html text : Str) (sc : Option ℚ) (k hidx pidx cidx : Nat)
    (h1 : pyFind href_tag html = some hidx) (h2 : 0 < hidx)
    (h3 : pyFind product_tag text = some pidx) (h4 : 0 < pidx)
    (h5 : pyFindFrom category_tag text (pidx + product_tag.length) = some cidx) :
    (formatOne k ⟨some html, some text, sc⟩).url
      = slack_encode (url_start ++ href_tag ++ ((html.drop (hidx + href_tag.length)).take 6)) ∧
    (formatOne k ⟨some html, some text, sc⟩).name
      = slack_encode
          ((text.drop (pidx + product_tag.length)).take
            (cidx - 1 - (pidx + product_tag.length))) := by
  have hc : 0 < cidx := by
    have := pyFindFrom_start_le category_tag text (pidx + product_tag.length) cidx h5
    have hp8 : 0 < pidx + product_tag.length := by omega
    omega
  constructor
  · simp [formatOne, h1, h2]
  · simp [formatOne, h3, h4, h5, hc]

theorem wos_C8_extraction_witness :
    (formatOne 1 ⟨some ("x/ProductDetail.aspx?pid=A&BCDE".toList),
        some ("yProduct:ABCCategory:z".toList), none⟩).url
      = slack_encode (url_start ++ href_tag
          ++ ((("x/ProductDetail.aspx?pid=A&BCDE".toList).drop (1 + href_tag.length)).take 6)) ∧
    (formatOne 1 ⟨some ("x/ProductDetail.aspx?pid=A&BCDE".toList),
        some ("yProduct:ABCCategory:z".toList), none⟩).name
      = slack_encode
          ((("yProduct:ABCCategory:z".toList).drop (1 + product_tag.length)).take
            (12 - 1 - (1 + product_tag.length))) :=
  wos_C8_extraction ("x/ProductDetail.aspx?pid=A&BCDE".toList)
    ("yProduct:ABCCategory:z".toList) none 1 1 1 12
    (by decide) (by decide) (by decide) (by decide) (by decide)
